import Mathlib

/-!
Verification development for the scopus_scraper repository.

The Python sources are shallowly embedded here:
  * src/core/scraper.py   : tenacity retry configuration, exception-handler
    dispatch of `_scopus_auth`, `get_author`, `get_author_documents`.
  * src/main.py           : the document filter of `_get_documents` and the
    per-unit transaction shape of `_insert_author` / `_insert_document`.
  * src/core/db/connector.py : `insert_record` (ON CONFLICT DO UPDATE /
    DO NOTHING) and the special-cased `insert_subject_area` merge.
  * src/core/schemes.py   : the "before" model validators of `Document`
    and `Author`, in particular `Document._validate_titles`.

Machine integers do not occur (Python ints are unbounded); dicts are
embedded as association lists with Python update semantics; the mutation
performed in place by the validators is embedded as explicit state
passing (dict in, dict out).
-/

namespace ScopusScraper

/-! ## Exception model (requests library hierarchy)

The classes that occur in src/core/scraper.py.  In the requests library:
`HTTPError`, `ConnectionError`, `Timeout` derive from `RequestException`;
`ProxyError` and `ConnectTimeout` derive from `ConnectionError` (and
`ConnectTimeout` also from `Timeout`); `JSONDecodeError` derives from
`InvalidJSONError` which derives from `RequestException`. -/

inductive PyExcType where
  | requestException
  | connectionError
  | httpError
  | proxyError
  | connectTimeout
  | jsonDecodeError
deriving DecidableEq, Repr

/-- Reflexive-transitive subclass test for the hierarchy above
(`isinstance` on the embedded classes). -/
def isSubclassOf : PyExcType → PyExcType → Bool
  | .requestException, .requestException => true
  | .connectionError, .connectionError => true
  | .connectionError, .requestException => true
  | .httpError, .httpError => true
  | .httpError, .requestException => true
  | .proxyError, .proxyError => true
  | .proxyError, .connectionError => true
  | .proxyError, .requestException => true
  | .connectTimeout, .connectTimeout => true
  | .connectTimeout, .connectionError => true
  | .connectTimeout, .requestException => true
  | .jsonDecodeError, .jsonDecodeError => true
  | .jsonDecodeError, .requestException => true
  | _, _ => false

/-- A Python `except (C1, C2, ...)` clause matches a raised exception
when the exception is an instance of one of the listed classes. -/
def matchesClause (e : PyExcType) (clause : List PyExcType) : Bool :=
  clause.any (fun c => isSubclassOf e c)

/-! ## tenacity configuration (src/core/scraper.py lines 14-17)

`request_exc = (RequestException, JSONDecodeError, ProxyError, ConnectTimeout)`
`wait_to_retry = wait_random(min=30, max=45)`
`stop_retry = stop_after_attempt(5)`

The three `@retry(...)` decorators in the file pass `sleep`, `retry`,
`wait` and `reraise=True` but do NOT pass a `stop` argument, so the
tenacity default `stop_never` is in effect for all three decorated
methods; `stop_retry` is defined and never used. -/

def request_exc : List PyExcType :=
  [.requestException, .jsonDecodeError, .proxyError, .connectTimeout]

/-- `tenacity.retry_if_exception_type(excs)`: retry exactly when the raised
exception is an instance of one of `excs`. -/
def retry_if_exc_type (excs : List PyExcType) (e : PyExcType) : Bool :=
  excs.any (fun c => isSubclassOf e c)

/-- `tenacity.stop_after_attempt n`: stop once the attempt number has
reached `n`. -/
def stop_after_attempt (n : Nat) (attemptNumber : Nat) : Bool :=
  n ≤ attemptNumber

/-- `tenacity.stop_never`, the default `stop` of `tenacity.retry`. -/
def stop_never (_ : Nat) : Bool :=
  false

/-- `stop_retry = stop_after_attempt(5)` (defined in the source, passed to
no decorator). -/
def stop_retry : Nat → Bool :=
  stop_after_attempt 5

/-- A `wait_random(min, max)` strategy: every sleep lasts a uniformly
random duration inside the closed interval `[lo, hi]` seconds. -/
structure WaitInterval where
  lo : Nat
  hi : Nat
deriving DecidableEq, Repr

def wait_random (lo hi : Nat) : WaitInterval :=
  ⟨lo, hi⟩

def wait_to_retry : WaitInterval :=
  wait_random 30 45

/-- Outcome of one attempt of a decorated method body: either a returned
value, or an exception propagating out of the body, tagged with whether
`_reset_client()` ran while handling it. -/
inductive AttemptOutcome (α : Type) where
  | ret (v : α)
  | raise (e : PyExcType) (sessionReset : Bool)
deriving DecidableEq, Repr

/-- Observable counts of one run of a decorated method: attempts started,
backoff sleeps performed, session resets performed. -/
structure RunStats where
  attempts : Nat
  sleeps : Nat
  resets : Nat
deriving DecidableEq, Repr

inductive RunResult (α : Type) where
  /-- the call returned `v` -/
  | value (v : α)
  /-- the call raised `e` to its caller -/
  | raised (e : PyExcType)
  /-- the retry loop is still going after the given fuel -/
  | running
deriving DecidableEq, Repr

/-- The tenacity retry loop with `reraise=True`: run attempt `n`; on a
returned value stop; on an exception, if the `retry` predicate rejects it
or the `stop` strategy fires, re-raise it, otherwise sleep once and try
attempt `n + 1`.  `fuel` bounds the number of iterations we unfold; the
real loop has no such bound. -/
def retryRun {α : Type} (stop : Nat → Bool) (retryOn : PyExcType → Bool)
    (attempt : Nat → AttemptOutcome α) :
    Nat → Nat → RunStats → RunStats × RunResult α
  | 0, _, st => (st, .running)
  | fuel + 1, n, st =>
    match attempt n with
    | .ret v => (⟨st.attempts + 1, st.sleeps, st.resets⟩, .value v)
    | .raise e didReset =>
      let st1 : RunStats :=
        ⟨st.attempts + 1, st.sleeps, st.resets + (if didReset then 1 else 0)⟩
      if retryOn e = false then (st1, .raised e)
      else if stop n then (st1, .raised e)
      else retryRun stop retryOn attempt fuel (n + 1)
        ⟨st1.attempts, st1.sleeps + 1, st1.resets⟩

/-! ## Exception-handler dispatch (src/core/scraper.py)

Python tries `except` clauses in source order and the first clause whose
tuple matches the raised exception wins.  Each handler below returns
(session reset performed, exception re-raised). -/

/-- `get_author` handlers, in source order:
`except (RequestException, JSONDecodeError)` resets the client and
re-raises; `except (ProxyError, ConnectTimeout)` logs and re-raises. -/
def get_author_handle (e : PyExcType) : Bool × PyExcType :=
  if matchesClause e [.requestException, .jsonDecodeError] then (true, e)
  else if matchesClause e [.proxyError, .connectTimeout] then (false, e)
  else (false, e)

/-- `get_author_documents` has the same two handlers in the same order. -/
def get_author_documents_handle (e : PyExcType) : Bool × PyExcType :=
  if matchesClause e [.requestException, .jsonDecodeError] then (true, e)
  else if matchesClause e [.proxyError, .connectTimeout] then (false, e)
  else (false, e)

/-- `_scopus_auth` handlers, in source order: `except HTTPError` resets
the client and re-raises; `except (ProxyError, ConnectTimeout)` logs and
re-raises. -/
def scopus_auth_handle (e : PyExcType) : Bool × PyExcType :=
  if matchesClause e [.httpError] then (true, e)
  else if matchesClause e [.proxyError, .connectTimeout] then (false, e)
  else (false, e)

/-! ## One attempt of `get_author` / `get_author_documents` -/

/-- An HTTP response as the two methods observe it: the status code,
whether `response.json()` decodes, and the decoded record. -/
structure HttpResponse where
  status_code : Nat
  jsonDecodes : Bool
  body : List (String × String)
deriving DecidableEq, Repr

/-- One execution of the `get_author` body.  The request either raises a
transport exception or yields a response; a status in `[400, 403, 404]`
returns `{}` at once; any other status at least 400 makes
`raise_for_status` raise `HTTPError`; then `response.json()` may raise
`JSONDecodeError`.  Exceptions go through the except clauses of
`get_author_handle`. -/
def get_author_once (req : Except PyExcType HttpResponse) :
    AttemptOutcome (List (String × String)) :=
  match req with
  | .error e =>
    let h := get_author_handle e
    .raise h.2 h.1
  | .ok resp =>
    if resp.status_code ∈ [400, 403, 404] then .ret []
    else if 400 ≤ resp.status_code ∧ resp.status_code < 600 then
      let h := get_author_handle .httpError
      .raise h.2 h.1
    else if resp.jsonDecodes then .ret resp.body
    else
      let h := get_author_handle .jsonDecodeError
      .raise h.2 h.1

/-- One execution of the `get_author_documents` body; identical control
flow (the two methods differ only in URL and query parameters). -/
def get_author_documents_once (req : Except PyExcType HttpResponse) :
    AttemptOutcome (List (String × String)) :=
  match req with
  | .error e =>
    let h := get_author_documents_handle e
    .raise h.2 h.1
  | .ok resp =>
    if resp.status_code ∈ [400, 403, 404] then .ret []
    else if 400 ≤ resp.status_code ∧ resp.status_code < 600 then
      let h := get_author_documents_handle .httpError
      .raise h.2 h.1
    else if resp.jsonDecodes then .ret resp.body
    else
      let h := get_author_documents_handle .jsonDecodeError
      .raise h.2 h.1

/-- A full decorated `get_author` call: the `@retry` decorator passes
`retry=retry_if_exc_type(request_exc)` and no `stop`, so `stop_never`
applies.  `responses` gives the transport outcome of each attempt. -/
def get_author_run (responses : Nat → Except PyExcType HttpResponse)
    (fuel : Nat) : RunStats × RunResult (List (String × String)) :=
  retryRun stop_never (retry_if_exc_type request_exc)
    (fun n => get_author_once (responses n)) fuel 1 ⟨0, 0, 0⟩

/-- A full decorated `get_author_documents` call (same decorator
arguments). -/
def get_author_documents_run (responses : Nat → Except PyExcType HttpResponse)
    (fuel : Nat) : RunStats × RunResult (List (String × String)) :=
  retryRun stop_never (retry_if_exc_type request_exc)
    (fun n => get_author_documents_once (responses n)) fuel 1 ⟨0, 0, 0⟩

/-! ## Document filter of `_get_documents` (src/main.py) -/

/-- `PUB_YEAR` as configured in src/main.py (2020-2023 are commented
out). -/
def PUB_YEAR : List Nat :=
  [2024]

/-- The list-comprehension condition of `_get_documents`, exactly as
written:
`document.get("pubYear", 0) or 0 in PUB_YEAR and not connector.record_exists(...)`.
By Python precedence (`and` binds tighter than `or`, `in` tighter than
both) this is `truthy(pubYear) or ((0 in PUB_YEAR) and (not exists))`.
`pubYear` defaults to 0 when absent. -/
def keep_document (pubYear : Nat) (documentExists : Bool) : Bool :=
  (pubYear != 0) || (PUB_YEAR.contains 0 && !documentExists)

/-- The filter applied by `_get_documents` to the fetched items, over
pairs (pubYear, whether a Document row with this scopus id exists). -/
def get_documents_filter (docs : List (Nat × Bool)) : List (Nat × Bool) :=
  docs.filter (fun d => keep_document d.1 d.2)

/-! ## `DatabaseConnector.insert_record` (src/core/db/connector.py)

A table row is its (possibly composite) conflict key together with the
remaining columns as name-value pairs.  `insert_record` builds an INSERT
with, on a conflict of the index elements, either
`DO UPDATE SET col = value for every non-key column of the record`
(`on_conflict_do_update=True`) or `DO NOTHING`. -/

structure DbRow where
  key : String
  cols : List (String × String)
deriving DecidableEq, Repr

/-- `UPDATE ... SET` of the columns listed in `set_` on one stored row:
every column named in `set_` takes its new value, all other columns keep
theirs. -/
def applySet (old set_ : List (String × String)) : List (String × String) :=
  old.map (fun cv => (cv.1, ((set_.lookup cv.1).getD cv.2)))

/-- `DatabaseConnector.insert_record`: insert the record; on a conflict
with an existing row of the same key, overwrite all non-key columns with
the new values when `on_conflict_do_update` is true, and leave the row
alone when it is false. -/
def insert_record (table : List DbRow) (record : DbRow)
    (on_conflict_do_update : Bool) : List DbRow :=
  if table.any (fun r => r.key == record.key) then
    if on_conflict_do_update then
      table.map (fun r =>
        if r.key == record.key then ⟨r.key, applySet r.cols record.cols⟩ else r)
    else table
  else table ++ [record]

/-! ## `DatabaseConnector.insert_subject_area` (src/core/db/connector.py)

The subject-area table is keyed by `name` and carries a numeric `code`
and a string `codename`, each nullable.  The scheme maps empty strings to
None (`empty_value_to_none`) and `code` is a `PositiveInt`, so Python
truthiness of the two fields coincides with `Option.isSome` here. -/

structure SubjectAreaRow where
  name : String
  code : Option Nat
  codename : Option String
deriving DecidableEq, Repr

/-- The `set_` dictionary of `insert_subject_area`, applied to the
conflicting stored row: `{code: new}` when only `code` is provided,
`{codename: new}` when only `codename` is provided, `{}` otherwise. -/
def subjectAreaUpdateValues (sa old : SubjectAreaRow) : SubjectAreaRow :=
  if sa.code.isSome && !sa.codename.isSome then { old with code := sa.code }
  else if !sa.code.isSome && sa.codename.isSome then
    { old with codename := sa.codename }
  else old

/-- `DatabaseConnector.insert_subject_area`: INSERT with
`ON CONFLICT (name) DO UPDATE SET update_values`. -/
def insert_subject_area (table : List SubjectAreaRow) (sa : SubjectAreaRow) :
    List SubjectAreaRow :=
  if table.any (fun r => r.name == sa.name) then
    table.map (fun r => if r.name == sa.name then subjectAreaUpdateValues sa r else r)
  else table ++ [sa]

/-! ## Per-unit transactions (src/main.py)

`_insert_author` and `_insert_document` each open a connector, run a
sequence of `connector.insert_*` calls (each a `session.execute`) on one
session, then `session.commit()`; `except SQLAlchemyError` runs
`session.rollback()`.  A session is a committed (visible) list of rows
plus the pending statements of the open transaction. -/

structure DbSession (α : Type) where
  committed : List α
  pending : List α
deriving DecidableEq, Repr

/-- Execute the unit's insert statements in order on the open
transaction; each statement carries whether it succeeds, and the first
failing one raises `SQLAlchemyError` out of the sequence. -/
def execute_inserts {α : Type} (pending : List α) :
    List (α × Bool) → Except Unit (List α)
  | [] => .ok pending
  | (r, true) :: rest => execute_inserts (pending ++ [r]) rest
  | (_, false) :: _ => .error ()

/-- One logical unit as `_insert_author` / `_insert_document` run it:
all inserts, then `commit` on success; `rollback` when any insert raised
`SQLAlchemyError`. -/
def insert_unit {α : Type} (s : DbSession α) (inserts : List (α × Bool)) :
    DbSession α :=
  match execute_inserts s.pending inserts with
  | .ok p => ⟨s.committed ++ p, []⟩
  | .error _ => ⟨s.committed, []⟩

/-! ## Python values and dicts (for src/core/schemes.py)

The "before" model validators receive the raw decoded JSON payload as a
Python dict and update it; dicts are embedded as association lists with
unique keys, assignment overwriting an existing key in place and
appending a new one. -/

inductive PyVal where
  | pynone
  | str (s : String)
  | int (n : Int)
  | bool (b : Bool)
  | list (xs : List PyVal)
  | dict (kvs : List (String × PyVal))
deriving Repr

abbrev PyDict : Type :=
  List (String × PyVal)

/-- Python truthiness of the embedded values. -/
def truthy : PyVal → Bool
  | .pynone => false
  | .str s => !(s == "")
  | .int n => !(n == 0)
  | .bool b => b
  | .list xs => !xs.isEmpty
  | .dict kvs => !kvs.isEmpty

/-- `a or b`. -/
def pyOr (a b : PyVal) : PyVal :=
  if truthy a then a else b

/-- `d.get(key, default)`. -/
def dictGetD (d : PyDict) (key : String) (default : PyVal) : PyVal :=
  (List.lookup key d).getD default

/-- `d[key]` lookup, `none` when the key is absent. -/
def dictGet (d : PyDict) (key : String) : Option PyVal :=
  List.lookup key d

/-- `d[key] = v`. -/
def dictSet (d : PyDict) (key : String) (v : PyVal) : PyDict :=
  if d.any (fun kv => kv.1 == key) then
    d.map (fun kv => if kv.1 == key then (key, v) else kv)
  else d ++ [(key, v)]

/-- `d.update(other)`. -/
def dictUpdate (d other : PyDict) : PyDict :=
  other.foldl (fun acc kv => dictSet acc kv.1 kv.2) d

def PyVal.asString : PyVal → Option String
  | .str s => some s
  | _ => none

/-! ## `Document` model validator (src/core/schemes.py) -/

/-- The closure `is_valid_title` of `Document._validate_titles`:
`title_ and isinstance(title_, str)` used as a filter condition. -/
def isValidTitle (t : PyVal) : Bool :=
  truthy t && (t.asString.isSome)

/-- The set comprehension of `_validate_titles`:
`{title for title in titles if is_valid_title(title)}` as a deduplicated
list of the string values. -/
def validTitleStrings (titles : List PyVal) : List String :=
  ((titles.filter isValidTitle).filterMap PyVal.asString).dedup

/-- `Document._extract_document_ids`: splice the
`databaseDocumentIds` sub-dict into the top level, when it is a dict. -/
def extract_document_ids (d : PyDict) : PyDict :=
  match pyOr (dictGetD d "databaseDocumentIds" (.dict [])) (.dict []) with
  | .dict kvs => dictUpdate d kvs
  | _ => d

/-- `Document._extract_authors_ids`: add an `authors_ids` key holding
the truthy `authorId` of every dict entry of `authors`. -/
def extract_authors_ids (d : PyDict) : PyDict :=
  match pyOr (dictGetD d "authors" (.list [])) (.list []) with
  | .list authors =>
    dictSet d "authors_ids" (.list (authors.filterMap (fun a =>
      match a with
      | .dict kvs =>
        let aid := dictGetD kvs "authorId" .pynone
        if truthy aid then some aid else none
      | _ => none)))
  | _ => d

/-- `Document._validate_titles`: append the (truthy-or-None) main title
to the titles list, rebind `titles` to the deduplicated set of valid
titles, and raise `ValidationError` when that set is empty; when
`titles` is not a list, fall back to the main title alone. -/
def validate_titles (d : PyDict) : Except String PyDict :=
  let main_title := pyOr (dictGetD d "title" .pynone) .pynone
  match pyOr (dictGetD d "titles" (.list [])) (.list []) with
  | .list titles =>
    let kept := validTitleStrings (titles ++ [main_title])
    if kept.isEmpty then .error "No document titles"
    else .ok (dictSet d "titles" (.list (kept.map PyVal.str)))
  | _ =>
    if isValidTitle main_title then .ok (dictSet d "titles" (.list [main_title]))
    else .error "No document titles"

/-- `Document._extract_citations_count`. -/
def extract_citations_count (d : PyDict) : PyDict :=
  match pyOr (dictGetD d "citations" (.dict [])) (.dict []) with
  | .dict kvs => dictSet d "citations_count" (dictGetD kvs "count" .pynone)
  | _ => d

/-- `Document._extract_references_count`. -/
def extract_references_count (d : PyDict) : PyDict :=
  match pyOr (dictGetD d "references" (.dict [])) (.dict []) with
  | .dict kvs => dictSet d "references_count" (dictGetD kvs "count" .pynone)
  | _ => d

/-- `Document.prevalidate_input_data` on a dict payload: the four
extraction steps and the title validation, updating the payload in
order (the Python code mutates one dict; the embedding passes the state
explicitly). -/
def prevalidate_input_data (d : PyDict) : Except String PyDict :=
  let d1 := extract_document_ids d
  let d2 := extract_authors_ids d1
  match validate_titles d2 with
  | .error e => .error e
  | .ok d3 => .ok (extract_references_count (extract_citations_count d3))

/-! ## `Author` model validator (src/core/schemes.py) -/

/-- `Author._extract_names`: splice `preferredName` into the top
level, when it is a dict. -/
def extract_names (d : PyDict) : PyDict :=
  match pyOr (dictGetD d "preferredName" (.dict [])) (.dict []) with
  | .dict kvs => dictUpdate d kvs
  | _ => d

/-- `Author._extract_affiliated_institution_id`: add an
`affiliated_institution_id` key holding the id (or None) of
`latestAffiliatedInstitution`, when that is a dict. -/
def extract_affiliated_institution_id (d : PyDict) : PyDict :=
  match pyOr (dictGetD d "latestAffiliatedInstitution" (.dict [])) (.dict []) with
  | .dict kvs =>
    dictUpdate d [("affiliated_institution_id", pyOr (dictGetD kvs "id" .pynone) .pynone)]
  | _ => d

/-- `Author.prevalidate_author_data` on a dict payload. -/
def prevalidate_author_data (d : PyDict) : PyDict :=
  extract_affiliated_institution_id (extract_names d)

/-! ## Sample payloads (abridged from the examples embedded at the
bottom of src/core/schemes.py) -/

def sampleDocumentData : PyDict :=
  [("eid", .str "2-s2.0-85182507917"),
   ("title", .str "Bot Detection Using Mouse Movements"),
   ("titles", .list [.str "An Alternate Title"]),
   ("scopusId", .str "85182507917"),
   ("pubYear", .int 2023),
   ("citations", .dict [("count", .int 1)]),
   ("references", .dict [("count", .int 22)]),
   ("databaseDocumentIds", .dict [("PUI", .str "643236192"), ("SGR", .str "85182507917")]),
   ("authors", .list [.dict [("authorId", .str "58815351600")],
                      .dict [("authorId", .str "55027255900")]])]

def sampleAuthorData : PyDict :=
  [("authorId", .str "58815351600"),
   ("eid", .str "9-s2.0-58815351600"),
   ("preferredName", .dict [("first", .str "N. S."), ("last", .str "Afanaseva"),
                            ("full", .str "Afanaseva, N. S.")]),
   ("latestAffiliatedInstitution",
      .dict [("id", .str "60104566"),
             ("name", .str "Omsk State Transport University")])]

/-- The document payload after `Document.prevalidate_input_data`. -/
def sampleDocumentValidated : PyDict :=
  (prevalidate_input_data sampleDocumentData).toOption.getD []

/-! ## Helper lemmas -/

theorem execute_inserts_of_fail {α : Type} (p : List α) (l : List (α × Bool))
    (h : ∃ i ∈ l, i.2 = false) : execute_inserts p l = .error () := by
  induction l generalizing p with
  | nil => simp at h
  | cons hd tl ih =>
    obtain ⟨r0, b0⟩ := hd
    cases b0 with
    | false => simp [execute_inserts]
    | true =>
      obtain ⟨i, hmem, hi⟩ := h
      rcases List.mem_cons.mp hmem with rfl | htl
      · simp at hi
      · simpa [execute_inserts] using ih (p ++ [r0]) ⟨i, htl, hi⟩

theorem execute_inserts_of_ok {α : Type} (p : List α) (l : List (α × Bool))
    (h : ∀ i ∈ l, i.2 = true) : execute_inserts p l = .ok (p ++ l.map Prod.fst) := by
  induction l generalizing p with
  | nil => simp [execute_inserts]
  | cons hd tl ih =>
    obtain ⟨r0, b0⟩ := hd
    have hb0 : b0 = true := h (r0, b0) (List.mem_cons_self _ _)
    subst hb0
    have := ih (p ++ [r0]) (fun i hi => h i (List.mem_cons_of_mem _ hi))
    simpa [execute_inserts] using this

theorem applySet_applySet (x s : List (String × String)) :
    applySet (applySet x s) s = applySet x s := by
  simp only [applySet, List.map_map]
  refine List.map_congr_left ?_
  intro cv _
  cases h : s.lookup cv.1 <;> simp [Function.comp, h]

theorem lookup_self_of_nodupKeys (l : List (String × String))
    (h : (l.map Prod.fst).Nodup) : ∀ cv ∈ l, l.lookup cv.1 = some cv.2 := by
  induction l with
  | nil => intro cv hcv; simp at hcv
  | cons hd tl ih =>
    intro cv hcv
    rw [List.map_cons, List.nodup_cons] at h
    rcases List.mem_cons.mp hcv with rfl | htl
    · obtain ⟨k, v⟩ := cv
      simp [List.lookup_cons]
    · have hne : (cv.1 == hd.1) = false := by
        refine beq_eq_false_iff_ne.mpr ?_
        intro he
        exact h.1 (he ▸ List.mem_map_of_mem Prod.fst htl)
      obtain ⟨k0, v0⟩ := hd
      rw [List.lookup_cons]
      simp only at hne
      rw [hne]
      exact ih h.2 cv htl

theorem applySet_self (l : List (String × String))
    (h : (l.map Prod.fst).Nodup) : applySet l l = l := by
  unfold applySet
  have he : ∀ cv ∈ l, (cv.1, ((l.lookup cv.1).getD cv.2)) = id cv := by
    intro cv hcv
    rw [lookup_self_of_nodupKeys l h cv hcv]
    exact Prod.mk.eta
  rw [List.map_congr_left he, List.map_id]

/-! ## Claim theorems -/

/-- C1: the subject-area upsert merges in only the newly provided field
among code and codename.  Concretely, upserting (name X, code 17) then
(name X, codename COMP) yields a row with code 17 and codename COMP, and
upserting (name X, code 17) then (name X, code 99) leaves the codename
untouched; in general, a conflicting upsert that provides only a code
updates only the code of the matching row, and one that provides only a
codename updates only the codename. -/
theorem subject_area_merge_spec :
    (insert_subject_area (insert_subject_area [] ⟨"X", some 17, none⟩)
        ⟨"X", none, some "COMP"⟩ = [⟨"X", some 17, some "COMP"⟩])
  ∧ (insert_subject_area (insert_subject_area [] ⟨"X", some 17, none⟩)
        ⟨"X", some 99, none⟩ = [⟨"X", some 99, none⟩])
  ∧ (∀ (t : List SubjectAreaRow) (sa : SubjectAreaRow),
      t.any (fun r => r.name == sa.name) = true →
      ((sa.code.isSome = true ∧ sa.codename = none →
          insert_subject_area t sa
            = t.map (fun r =>
                if r.name == sa.name then { r with code := sa.code } else r))
        ∧ (sa.code = none ∧ sa.codename.isSome = true →
          insert_subject_area t sa
            = t.map (fun r =>
                if r.name == sa.name then { r with codename := sa.codename } else r)))) := by
  refine ⟨by decide, by decide, ?_⟩
  intro t sa h
  constructor
  · rintro ⟨h1, h2⟩
    simp only [insert_subject_area, h, if_true]
    refine List.map_congr_left ?_
    intro r _
    by_cases hr : (r.name == sa.name) = true
    · simp [hr, subjectAreaUpdateValues, h1, h2]
    · simp [hr]
  · rintro ⟨h1, h2⟩
    simp only [insert_subject_area, h, if_true]
    refine List.map_congr_left ?_
    intro r _
    by_cases hr : (r.name == sa.name) = true
    · simp [hr, subjectAreaUpdateValues, h1, h2]
    · simp [hr]

/-- Witness for C1 at a concrete conflicting upsert that provides only a
new code: the stored codename survives. -/
theorem subject_area_merge_spec_witness :
    ([(⟨"X", some 5, some "Z"⟩ : SubjectAreaRow)].any (fun r => r.name == "X")) = true
  ∧ insert_subject_area [⟨"X", some 5, some "Z"⟩] ⟨"X", some 9, none⟩
      = [⟨"X", some 9, some "Z"⟩] := by
  refine ⟨by decide, ?_⟩
  have h := (subject_area_merge_spec.2.2 [⟨"X", some 5, some "Z"⟩]
      ⟨"X", some 9, none⟩ (by decide)).1 ⟨by decide, rfl⟩
  rw [h]
  decide

/-- C2 evaluation (code bug): the three `@retry` decorators never pass
`stop`, so tenacity runs with `stop_never`; with a `ProxyError` on every
attempt, after fuel for 6 iterations `get_author` has started 6 attempts
(and 6 sleeps, 6 resets) and is still retrying, with no exception
propagated — against at most 5 attempts and 4 sleeps.  Had `stop_retry`
(the unused `stop_after_attempt(5)`) been passed, the same failing run
would make exactly 5 attempts and 4 sleeps and re-raise the final
`ProxyError`, as the claim states.  The configured backoff really is
`wait_random(30, 45)`. -/
theorem retry_unbounded_attempts_eval :
    get_author_run (fun _ => .error .proxyError) 6
      = (⟨6, 6, 6⟩, RunResult.running)
  ∧ retryRun stop_retry (retry_if_exc_type request_exc)
      (fun _ => get_author_once (Except.error PyExcType.proxyError)) 6 1 ⟨0, 0, 0⟩
      = (⟨5, 4, 5⟩, RunResult.raised PyExcType.proxyError)
  ∧ wait_to_retry = wait_random 30 45 :=
  ⟨rfl, rfl, rfl⟩

/-- C3 evaluation (code bug): a `ProxyError` (or `ConnectTimeout`)
raised inside `get_author` or `get_author_documents` is an instance of
`RequestException`, so the first `except (RequestException,
JSONDecodeError)` clause catches it and `_reset_client()` runs before
the re-raise: the failed attempt does mutate the session.  The dedicated
no-reset clause is reachable only in `_scopus_auth`, whose first clause
catches only `HTTPError`. -/
theorem proxy_error_resets_session_eval :
    get_author_once (Except.error PyExcType.proxyError)
      = .raise PyExcType.proxyError true
  ∧ get_author_documents_once (Except.error PyExcType.proxyError)
      = .raise PyExcType.proxyError true
  ∧ get_author_once (Except.error PyExcType.connectTimeout)
      = .raise PyExcType.connectTimeout true
  ∧ isSubclassOf PyExcType.proxyError PyExcType.requestException = true
  ∧ scopus_auth_handle PyExcType.proxyError = (false, PyExcType.proxyError) :=
  ⟨rfl, rfl, rfl, rfl, rfl⟩

/-- C4 evaluation (code bug): by Python precedence the filter condition
of `_get_documents` is `truthy(pubYear) or ((0 in PUB_YEAR) and (not
record_exists))`, so with `PUB_YEAR = [2024]` a document published in
1999 — a year not in the allowed set, and even one already present in
the database — is kept. -/
theorem document_filter_wrong_year_eval :
    get_documents_filter [(1999, true)] = [(1999, true)]
  ∧ PUB_YEAR.contains 1999 = false
  ∧ keep_document 1999 true = true :=
  ⟨rfl, rfl, rfl⟩

/-- C5: when the first response of `get_author` or
`get_author_documents` carries status 400, 403 or 404, the call returns
the empty record after exactly one attempt, with no backoff sleep, no
session reset, and no exception. -/
theorem soft_empty_status_spec
    (resp : HttpResponse) (responses : Nat → Except PyExcType HttpResponse)
    (fuel : Nat)
    (hs : resp.status_code = 400 ∨ resp.status_code = 403 ∨ resp.status_code = 404)
    (h1 : responses 1 = .ok resp) (hf : 1 ≤ fuel) :
    get_author_run responses fuel = (⟨1, 0, 0⟩, .value [])
  ∧ get_author_documents_run responses fuel = (⟨1, 0, 0⟩, .value []) := by
  obtain ⟨f, rfl⟩ : ∃ f, fuel = f + 1 := ⟨fuel - 1, by omega⟩
  have hmem : resp.status_code ∈ [400, 403, 404] := by
    rcases hs with h | h | h <;> simp [h]
  constructor
  · simp [get_author_run, retryRun, h1, get_author_once, hmem]
  · simp [get_author_documents_run, retryRun, h1, get_author_documents_once, hmem]

/-- Witness for C5 at a concrete 404 response. -/
theorem soft_empty_status_spec_witness :
    get_author_run (fun _ => .ok ⟨404, true, [("a", "b")]⟩) 3
      = (⟨1, 0, 0⟩, .value [])
  ∧ get_author_documents_run (fun _ => .ok ⟨404, true, [("a", "b")]⟩) 3
      = (⟨1, 0, 0⟩, .value []) :=
  soft_empty_status_spec ⟨404, true, [("a", "b")]⟩ _ 3 (by decide) rfl (by decide)

/-- C6: one logical unit (`_insert_author` / `_insert_document`) runs
all its inserts on one fresh session and commits once at the end; if any
insert fails the unit is rolled back, so the visible rows are exactly
the prior ones, and if all inserts succeed all the rows of the unit
become visible together. -/
theorem unit_transaction_spec {α : Type} (db : List α) (inserts : List (α × Bool)) :
    ((∃ i ∈ inserts, i.2 = false) →
        insert_unit ⟨db, []⟩ inserts = ⟨db, []⟩)
  ∧ ((∀ i ∈ inserts, i.2 = true) →
        insert_unit ⟨db, []⟩ inserts = ⟨db ++ inserts.map Prod.fst, []⟩) := by
  constructor
  · intro h
    simp [insert_unit, execute_inserts_of_fail [] inserts h]
  · intro h
    simp [insert_unit, execute_inserts_of_ok [] inserts h]

/-- Witness for C6: the parent row and five child rows where the third
child insert violates a constraint — nothing becomes visible; and a
fully successful two-insert unit commits both rows. -/
theorem unit_transaction_spec_witness :
    insert_unit (⟨["prior"], []⟩ : DbSession String)
      [("parent", true), ("child1", true), ("child2", true),
       ("child3", false), ("child4", true), ("child5", true)]
      = ⟨["prior"], []⟩
  ∧ insert_unit (⟨["prior"], []⟩ : DbSession String)
      [("parent", true), ("child1", true)]
      = ⟨["prior"] ++ [("parent", true), ("child1", true)].map Prod.fst, []⟩ :=
  ⟨(unit_transaction_spec ["prior"] _).1 ⟨("child3", false), by decide, rfl⟩,
   (unit_transaction_spec ["prior"] _).2 (by decide)⟩

/-- C7: on a payload with title "A" and titles ["A", "B", ""], the title
normalization of `Document._validate_titles` rebinds `titles` to exactly
the set of titles A and B (duplicates removed, blanks dropped); on a
payload with title "" and an empty titles list it fails with a
validation error. -/
theorem validate_titles_spec :
    (∃ ts : List String,
      validate_titles [("title", .str "A"), ("titles", .list [.str "A", .str "B", .str ""])]
        = .ok [("title", PyVal.str "A"), ("titles", PyVal.list (ts.map PyVal.str))]
      ∧ ts.Nodup ∧ (∀ s : String, s ∈ ts ↔ (s = "A" ∨ s = "B")))
  ∧ validate_titles [("title", .str ""), ("titles", .list [])]
      = .error "No document titles" := by
  refine ⟨⟨["B", "A"], rfl, by decide, ?_⟩, rfl⟩
  intro s
  constructor
  · intro hs
    rcases List.mem_cons.mp hs with rfl | hs
    · exact Or.inr rfl
    · rcases List.mem_cons.mp hs with rfl | hs
      · exact Or.inl rfl
      · simp at hs
  · rintro (rfl | rfl) <;> simp

/-- C8: a child-row upsert in "do nothing" mode whose composite key
already has a row leaves the table entirely unchanged, whatever the new
non-key payload is. -/
theorem do_nothing_preserves_existing
    (table : List DbRow) (record : DbRow)
    (h : table.any (fun r => r.key == record.key) = true) :
    insert_record table record false = table := by
  simp [insert_record, h]

/-- Witness for C8: re-upserting key k with a different payload in
"do nothing" mode keeps the stored payload. -/
theorem do_nothing_preserves_existing_witness :
    ([(⟨"k", [("a", "1")]⟩ : DbRow)].any
        (fun r => r.key == (⟨"k", [("a", "2")]⟩ : DbRow).key)) = true
  ∧ insert_record [⟨"k", [("a", "1")]⟩] ⟨"k", [("a", "2")]⟩ false
      = [⟨"k", [("a", "1")]⟩] :=
  ⟨by decide, do_nothing_preserves_existing _ _ (by decide)⟩

/-- C9: a "refresh" (overwrite) upsert is idempotent: applying the same
record twice in `on_conflict_do_update` mode yields the same table as
applying it once (for records whose column names are distinct, as dicts
guarantee). -/
theorem refresh_upsert_idempotent
    (table : List DbRow) (record : DbRow)
    (hkeys : (record.cols.map Prod.fst).Nodup) :
    insert_record (insert_record table record true) record true
      = insert_record table record true := by
  by_cases hmem : table.any (fun r => r.key == record.key) = true
  · simp only [insert_record, hmem, if_true]
    have hkeep : ∀ r : DbRow,
        ((if r.key == record.key then
            (⟨r.key, applySet r.cols record.cols⟩ : DbRow) else r).key == record.key)
          = (r.key == record.key) := by
      intro r
      by_cases hr : (r.key == record.key) = true <;> simp [hr]
    have hfun : ((fun r : DbRow => r.key == record.key) ∘ (fun r : DbRow =>
        if r.key == record.key then
          (⟨r.key, applySet r.cols record.cols⟩ : DbRow) else r))
        = fun r : DbRow => r.key == record.key := funext hkeep
    have hany : (table.map (fun r =>
        if r.key == record.key then
          (⟨r.key, applySet r.cols record.cols⟩ : DbRow) else r)).any
        (fun r => r.key == record.key) = true := by
      rw [List.any_map, hfun]
      exact hmem
    simp only [hany, if_true, List.map_map]
    refine List.map_congr_left ?_
    intro r _
    by_cases hr : (r.key == record.key) = true <;>
      simp [Function.comp, hr, applySet_applySet]
  · have hmem2 : table.any (fun r => r.key == record.key) = false :=
      Bool.eq_false_iff.mpr hmem
    have hfalse : ∀ r ∈ table, (r.key == record.key) = false := by
      intro r hr
      have := List.any_eq_false.mp hmem2 r hr
      simpa using this
    have hany : ((table ++ [record]).any (fun r => r.key == record.key)) = true := by
      simp [List.any_append]
    have hg : (table ++ [record]).map (fun r =>
        if r.key == record.key then
          (⟨r.key, applySet r.cols record.cols⟩ : DbRow) else r)
        = table ++ [record] := by
      rw [List.map_append]
      congr 1
      · refine (List.map_congr_left ?_).trans (List.map_id table)
        intro r hr
        simp [hfalse r hr]
      · simp [applySet_self record.cols hkeys]
    simp only [insert_record, hmem2, Bool.false_eq_true, if_false, hany,
      eq_self_iff_true, if_true]
    exact hg

/-- Witness for C9 at a concrete two-column record over an existing
row. -/
theorem refresh_upsert_idempotent_witness :
    (((⟨"k", [("a", "9"), ("b", "8")]⟩ : DbRow).cols.map Prod.fst).Nodup)
  ∧ insert_record
      (insert_record [⟨"k", [("a", "1"), ("b", "2")]⟩]
        ⟨"k", [("a", "9"), ("b", "8")]⟩ true)
      ⟨"k", [("a", "9"), ("b", "8")]⟩ true
      = insert_record [⟨"k", [("a", "1"), ("b", "2")]⟩]
          ⟨"k", [("a", "9"), ("b", "8")]⟩ true :=
  ⟨by decide, refresh_upsert_idempotent _ _ (by decide)⟩

/-- C10: the "before" validators update the raw payload itself: document
prevalidation splices the database document ids to the top level, adds
the derived authors_ids, citations_count and references_count keys and
rebinds titles with the main title included, and author prevalidation
splices the preferred names and adds affiliated_institution_id — so the
payload after validation differs from the one passed in. -/
theorem prevalidation_mutates_payload :
    (prevalidate_input_data sampleDocumentData = .ok sampleDocumentValidated
      ∧ dictGet sampleDocumentData "authors_ids" = Option.none
      ∧ dictGet sampleDocumentValidated "authors_ids"
          = some (.list [.str "58815351600", .str "55027255900"])
      ∧ dictGet sampleDocumentData "PUI" = Option.none
      ∧ dictGet sampleDocumentValidated "PUI" = some (.str "643236192")
      ∧ dictGet sampleDocumentValidated "citations_count" = some (.int 1)
      ∧ dictGet sampleDocumentValidated "references_count" = some (.int 22)
      ∧ dictGet sampleDocumentValidated "titles"
          = some (.list [.str "An Alternate Title",
                         .str "Bot Detection Using Mouse Movements"])
      ∧ sampleDocumentValidated.length ≠ sampleDocumentData.length)
  ∧ (dictGet sampleAuthorData "affiliated_institution_id" = Option.none
      ∧ dictGet (prevalidate_author_data sampleAuthorData) "affiliated_institution_id"
          = some (.str "60104566")
      ∧ dictGet sampleAuthorData "first" = Option.none
      ∧ dictGet (prevalidate_author_data sampleAuthorData) "first"
          = some (.str "N. S.")
      ∧ (prevalidate_author_data sampleAuthorData).length ≠ sampleAuthorData.length) :=
  ⟨⟨rfl, rfl, rfl, rfl, rfl, rfl, rfl, rfl, by decide⟩,
   ⟨rfl, rfl, rfl, rfl, by decide⟩⟩

end ScopusScraper
